import Mathlib

/-!
Shallow embedding of the pr-reviewer core: the AI-SDK inference provider
(`AISDKProvider.runInference`) and the CLI harness (`resolveGitHubToken`,
`listPRs`, `reviewPR`, `parseArgs`, `main` dispatch) from `src/cli.ts`,
together with proofs of the spec's testable properties.
-/

namespace PRReviewer

/-! ## JSON-like values (backend responses and schema payloads) -/

/-- A JSON-like runtime value, as handled by the provider after the
backend round trip.  `obj` keeps fields in order; lookup takes the first
binding, matching JS property access on a parsed object. -/
inductive JValue where
  | null
  | bool (b : Bool)
  | num (n : Int)
  | str (s : String)
  | arr (xs : List JValue)
  | obj (fields : List (String × JValue))

/-- The reserved sentinel key some backends wrap the true payload under. -/
def parameterNameKey : String := "$PARAMETER_NAME"

/-- JS `'k' in object` for a parsed JSON object: key lookup on the field list. -/
def lookupField (fields : List (String × JValue)) (k : String) : Option JValue :=
  match fields with
  | [] => none
  | (k', v) :: rest => if k' = k then some v else lookupField rest k

/-- The guard on line 113 of the provider:
`object && typeof object === 'object' && '$PARAMETER_NAME' in object`.
Only a non-null JS object (our `obj`) can satisfy it. -/
def sentinelPayload : JValue → Option JValue
  | .obj fields => lookupField fields parameterNameKey
  | _ => none

/-- Whether the response is sentinel-wrapped at all. -/
def hasSentinelKey (v : JValue) : Bool :=
  (sentinelPayload v).isSome

/-! ## Schemas and validation -/

/-- The error thrown by `schema.parse` on a non-conforming value: it carries
the offending value and the violation detail. -/
structure SchemaValidationError where
  offending : JValue
  detail : String

/-- A structural schema, modelled by its validation predicate.  `parse`
below models Zod's `schema.parse`: return the value when it conforms,
throw a validation error carrying the value otherwise. -/
structure Schema where
  valid : JValue → Bool

/-- Zod `schema.parse(v)`: the value itself on success, a
`SchemaValidationError` (ZodError) carrying `v` on failure. -/
def Schema.parse (s : Schema) (v : JValue) : Except SchemaValidationError JValue :=
  if s.valid v then .ok v
  else .error ⟨v, "value does not conform to schema"⟩

/-! ## The inference provider's response handling

`runInference` (provider lines 100–119) receives the `object` produced by
the backend via `generateObject`.  Because the provider passes the
JSON-schema wire form without a validator (deliberately bypassing the
SDK's own schema wrapping), the object reaches this code unvalidated; the
backend response is therefore a free parameter here.  Lines 112–119:
if the object is a non-null JS object containing the sentinel key, unwrap
it and `schema.parse` the payload; otherwise return the object directly. -/

/-- The response handling of `AISDKProvider.runInference`, as a function of
the request's schema and the backend response object. -/
def runInference (schema : Schema) (object : JValue) : Except SchemaValidationError JValue :=
  match sentinelPayload object with
  | some unwrapped => schema.parse unwrapped
  | none => .ok object

/-- A concrete schema accepting exactly numeric values, used for witnesses. -/
def numSchema : Schema := ⟨fun v => match v with | .num _ => true | _ => false⟩

/-! ## Process environment and external world (cli.ts) -/

/-- The process-wide environment variables `cli.ts` reads and writes. -/
structure Env where
  github_token : Option String := none
  github_action : Option String := none
  github_repository : Option String := none
  github_pull_request : Option String := none
  github_event_name : Option String := none
  github_event_action : Option String := none
  dry_run : Option String := none
  debug : Option String := none
deriving DecidableEq, Repr

/-- Outcome of `loadDotEnvIfExists`: the `.env` file is absent, fails to
load (the thrown error is caught and warned about), or loads, possibly
carrying a `GITHUB_TOKEN` entry. -/
inductive DotEnvResult where
  | absent
  | parseFailure
  | loaded (token : Option String)
deriving DecidableEq, Repr

/-- External inputs consumed during one credential resolution: the `.env`
file's fate and the stdout of `gh auth token` (`none` models `execSync`
throwing because the CLI is unavailable or unauthenticated). -/
structure World where
  dotenv : DotEnvResult
  ghAuthToken : Option String
deriving DecidableEq, Repr

/-! Character-list models of the JS string primitives the CLI uses; the
built-in `String` versions are not kernel-reducible, so concrete runs
could not be evaluated inside proofs with them. -/

/-- JS `s.trim()`: strip leading and trailing whitespace. -/
def trimJS (s : String) : String :=
  String.mk (((s.toList.dropWhile Char.isWhitespace).reverse.dropWhile
    Char.isWhitespace).reverse)

/-- JS `s.startsWith(pre)`. -/
def strStartsWith (s pre : String) : Bool :=
  pre.toList.isPrefixOf s.toList

/-- Split a character list at a separator character. -/
def splitOnCharList (c : Char) : List Char → List (List Char)
  | [] => [[]]
  | x :: xs =>
    let r := splitOnCharList c xs
    if x = c then [] :: r
    else
      match r with
      | y :: ys => (x :: y) :: ys
      | [] => [[x]]

/-- JS `s.split('/')`. -/
def splitOnSlash (s : String) : List String :=
  (splitOnCharList '/' s.toList).map String.mk

/-- The fatal message thrown when every credential source yields nothing
(the spec's `NoCredentialError`). -/
def noCredentialMsg : String :=
  "No GITHUB_TOKEN found; set env/.env or run `gh auth login`."

/-- The warning logged when loading the `.env` file throws. -/
def dotenvWarnMsg : String := "Failed to load .env file:"

/-- Model of `loadDotEnvIfExists`: if a `.env` file exists, load it (dotenv sets
`GITHUB_TOKEN` only when it is not already set); a load failure is warned
about and otherwise ignored.  Returns the updated environment and the
warnings printed. -/
def loadDotEnvIfExists (env : Env) (w : World) : Env × List String :=
  match w.dotenv with
  | .absent => (env, [])
  | .parseFailure => (env, [dotenvWarnMsg])
  | .loaded tok =>
    match env.github_token, tok with
    | none, some t => ({ env with github_token := some t }, [])
    | _, _ => (env, [])

/-- Result of one `resolveGitHubToken` call: the thrown message or the
token, the environment afterwards, the warnings printed, and whether the
external `gh auth token` command was invoked. -/
structure ResolveOutcome where
  result : Except String String
  env : Env
  warnings : List String
  ghInvoked : Bool
deriving Repr

/-- JS truthiness of an environment variable: an unset variable and one
set to the empty string are both falsy in `if (process.env.X)`. -/
def envTruthy : Option String → Bool
  | some s => s ≠ ""
  | none => false

/-- The first statement of `resolveGitHubToken` (cli.ts line 21): spoof
`GITHUB_ACTION` for local runs when `!process.env.GITHUB_ACTION`, i.e.
when it is unset or empty. -/
def spoofGitHubAction (env : Env) : Env :=
  if envTruthy env.github_action then env
  else { env with github_action := some "local" }

/-- The third credential source (cli.ts lines 28–38): the trimmed stdout
of `gh auth token`, cached into the environment when nonempty; throw the
no-credential error otherwise.  `warnings` carries the `.env` warnings
already printed. -/
def ghFallback (env : Env) (warnings : List String) (w : World) : ResolveOutcome :=
  match w.ghAuthToken with
  | some stdout =>
    let token := trimJS stdout
    if token ≠ "" then
      ⟨.ok token, { env with github_token := some token }, warnings, true⟩
    else
      ⟨.error noCredentialMsg, env, warnings, true⟩
  | none =>
    ⟨.error noCredentialMsg, env, warnings, true⟩

/-- The second and third credential sources (cli.ts lines 24–38): load
the `.env` file, return `GITHUB_TOKEN` if it is now truthy
(`if (process.env.GITHUB_TOKEN)`), otherwise fall back to `gh`. -/
def resolveFromDotEnv (env : Env) (w : World) : ResolveOutcome :=
  let loadedEnv := loadDotEnvIfExists env w
  if envTruthy loadedEnv.1.github_token then
    ⟨.ok (loadedEnv.1.github_token.getD ""), loadedEnv.1, loadedEnv.2, false⟩
  else ghFallback loadedEnv.1 loadedEnv.2 w

/-- The credential source chain of `resolveGitHubToken` (cli.ts lines
22–38): the explicit environment token if truthy
(`if (process.env.GITHUB_TOKEN)` — an empty string is falsy and falls
through), then the `.env` file, then `gh auth token`; throw when all
three yield nothing. -/
def resolveSources (env : Env) (w : World) : ResolveOutcome :=
  if envTruthy env.github_token then
    ⟨.ok (env.github_token.getD ""), env, [], false⟩
  else resolveFromDotEnv env w

/-- Model of `resolveGitHubToken` (cli.ts lines 19–39): spoof `GITHUB_ACTION`,
then walk the credential sources in order, first success wins. -/
def resolveGitHubToken (env : Env) (w : World) : ResolveOutcome :=
  resolveSources (spoofGitHubAction env) w

/-! ## Transcript capture and the review flow (`reviewPR`) -/

/-- The value of `args.out` as `reviewPR` receives it: absent, a boolean,
or a string path.  JS truthiness decides whether capture is enabled. -/
inductive OutValue where
  | undef
  | bool (b : Bool)
  | str (s : String)
deriving DecidableEq, Repr

/-- JS truthiness of the `out` argument (`if (out)`). -/
def OutValue.truthy : OutValue → Bool
  | .undef => false
  | .bool b => b
  | .str s => s ≠ ""

/-- Node `path.join(a, b)` on the already-clean segments `cli.ts` passes. -/
def pathJoin (a b : String) : String := a ++ "/" ++ b

/-- Node `path.isAbsolute` on POSIX: the path starts with a slash. -/
def isAbsolutePath (p : String) : Bool := strStartsWith p "/"

/-- Node `path.dirname`: everything before the last slash (`/` for a
root-level path, `.` when there is no slash). -/
def dirname (p : String) : String :=
  let pre := (p.toList.reverse.dropWhile (fun c => c ≠ '/')).reverse
  match pre with
  | [] => "."
  | ['/'] => "/"
  | _ => String.mk pre.dropLast

/-- Node `path.relative(base, p)` for the paths this flow builds: strip the
`base ++ "/"` prefix when present. -/
def relativePath (base p : String) : String :=
  let basePre := (base ++ "/").toList
  if basePre.isPrefixOf p.toList then String.mk (p.toList.drop basePre.length) else p

/-- JS `String(prNumber).replace(/[^0-9]/g, '')`. -/
def sanitizeDigits (s : String) : String :=
  String.mk (s.toList.filter Char.isDigit)

/-- The output path `reviewPR` computes when capture is enabled (cli.ts
lines 89–92): an explicit non-blank string path is used (absolutized
against the working directory), otherwise the default
`<cwd>/dry/pr-<sanitized>.txt`. -/
def outPathFor (prNumber : Int) (out : OutValue) (cwd : String) : String :=
  let sanitized := sanitizeDigits (toString prNumber)
  let defaultPath := pathJoin (pathJoin cwd "dry") ("pr-" ++ sanitized ++ ".txt")
  match out with
  | .str s => if (trimJS s).length ≠ 0 then (if isAbsolutePath s then s else pathJoin cwd s) else defaultPath
  | _ => defaultPath

/-- The two intercepted standard streams. -/
inductive StdStream where
  | stdout
  | stderr
deriving DecidableEq, Repr

/-- Buffer state while capture is active: the `chunks` array and the
fragments passed through to the original writers. -/
structure CaptureState where
  chunks : List String
  live : List (StdStream × String)
deriving DecidableEq, Repr

/-- Run a sequence of writes through the patched writers: each write
pushes its fragment onto `chunks` and still reaches the original
writer. -/
def captureRun : List (StdStream × String) → CaptureState → CaptureState
  | [], st => st
  | wr :: ws, st => captureRun ws ⟨st.chunks ++ [wr.2], st.live ++ [wr]⟩

/-- One run of the delegated review collaborator (`handlePullRequest`):
the fragments it writes to stdout/stderr, in order, and whether it
resolves or rejects. -/
structure DelegateRun where
  writes : List (StdStream × String)
  outcome : Except String Unit

/-- Observable side effects of the release function. -/
inductive Effect where
  | mkdirRec (dir : String)
  | writeFile (p : String) (content : String)
  | consoleLine (s : String)
deriving DecidableEq, Repr

/-- Outcome of one `reviewPR` call: the environment configured for the
delegate, the propagated result, how many times the release function ran,
whether the patched writers are still installed at the end, the fragments
that reached the real streams, and the file-system/console effects of the
release function. -/
structure ReviewOutcome where
  env : Env
  result : Except String Unit
  restoreCount : Nat
  writersPatchedAtEnd : Bool
  liveOutput : List (StdStream × String)
  effects : List Effect

/-- Model of `reviewPR` (cli.ts lines 63–131): resolve the token (a failure
propagates before any capture), force `DEBUG=1` and the synthesized
hosted-automation variables, optionally set `DRY_RUN`, optionally install
the capture, invoke the delegate, and in the `finally` block run the
release function exactly once whether the delegate resolved or
rejected. -/
def reviewPR (prNumber : Int) (dryRun : Bool) (owner repo : String)
    (out : OutValue) (cwd : String) (env : Env) (w : World)
    (delegate : DelegateRun) : ReviewOutcome :=
  let r := resolveGitHubToken env w
  match r.result with
  | .error e =>
    { env := r.env, result := .error e, restoreCount := 0,
      writersPatchedAtEnd := false, liveOutput := [], effects := [] }
  | .ok _ =>
    let env1 := { r.env with
      debug := some "1",
      github_repository := some (owner ++ "/" ++ repo),
      github_pull_request := some (toString prNumber),
      github_event_name := some "pull_request",
      github_event_action := some "synchronize" }
    let env2 := if dryRun then { env1 with dry_run := some "1" } else env1
    if out.truthy then
      let outPath := outPathFor prNumber out cwd
      let st := captureRun delegate.writes ⟨[], []⟩
      let release : List Effect :=
        [ .mkdirRec (dirname outPath),
          .writeFile outPath (String.join st.chunks),
          .consoleLine ("\n[dry-run] Saved output to " ++ relativePath cwd outPath) ]
      match delegate.outcome with
      | .ok u =>
        { env := env2, result := .ok u, restoreCount := 1,
          writersPatchedAtEnd := false, liveOutput := st.live, effects := release }
      | .error e =>
        { env := env2, result := .error e, restoreCount := 1,
          writersPatchedAtEnd := false, liveOutput := st.live, effects := release }
    else
      { env := env2, result := delegate.outcome, restoreCount := 0,
        writersPatchedAtEnd := false, liveOutput := delegate.writes, effects := [] }

/-! ## Argument parsing (`parseArgs`) -/

/-- JS `parseInt(s, 10)`: skip surrounding whitespace, read an optional
sign and the leading digit run; `none` models `NaN`. -/
def parseIntJS (s : String) : Option Int :=
  let t := trimJS s
  let signAndRest : Int × String :=
    if strStartsWith t "-" then (-1, t.drop 1)
    else if strStartsWith t "+" then (1, t.drop 1)
    else (1, t)
  let digits := signAndRest.2.toList.takeWhile Char.isDigit
  if digits.isEmpty then none
  else some (signAndRest.1 * Int.ofNat (digits.foldl (fun acc c => acc * 10 + (c.toNat - 48)) 0))

/-- The record `parseArgs` builds.  `none` in an `Option` field models
both an absent property and one set to `undefined`/`NaN` (the two are
indistinguishable to `main`'s `||` defaults). -/
structure Args where
  dryRun : Bool := false
  listPrs : Bool := false
  state : Option String := none
  limit : Option Int := none
  pr : Option Int := none
  owner : Option String := none
  repo : Option String := none
  out : OutValue := .undef
  positional : List String := []
deriving DecidableEq, Repr

/-- The `for` loop of `parseArgs` (cli.ts lines 136–164), one token at a
time.  Flags taking a value consume `argv[++i]` unconditionally; `--out`
and `-out` consume the next token only when it is truthy and does not
start with `-`; anything unrecognized is collected into `args._`. -/
def parseArgsLoop : List String → Args → Args
  | [], args => args
  | a :: rest, args =>
    if a = "--dry-run" then parseArgsLoop rest { args with dryRun := true }
    else if a = "--list-prs" then parseArgsLoop rest { args with listPrs := true }
    else if a = "--state" then
      match rest with
      | v :: rest' => parseArgsLoop rest' { args with state := some v }
      | [] => { args with state := none }
    else if a = "--limit" then
      match rest with
      | v :: rest' => parseArgsLoop rest' { args with limit := parseIntJS (if v = "" then "10" else v) }
      | [] => { args with limit := parseIntJS "10" }
    else if a = "--pr" then
      match rest with
      | v :: rest' => parseArgsLoop rest' { args with pr := parseIntJS (if v = "" then "0" else v) }
      | [] => { args with pr := parseIntJS "0" }
    else if a = "--owner" then
      match rest with
      | v :: rest' => parseArgsLoop rest' { args with owner := some v }
      | [] => { args with owner := none }
    else if a = "--repo" then
      match rest with
      | v :: rest' => parseArgsLoop rest' { args with repo := some v }
      | [] => { args with repo := none }
    else if a = "--out" ∨ a = "-out" then
      match rest with
      | next :: rest' =>
        if next ≠ "" ∧ ¬ strStartsWith next "-" then
          parseArgsLoop rest' { args with out := .str next }
        else
          parseArgsLoop (next :: rest') { args with out := .bool true }
      | [] => { args with out := .bool true }
    else parseArgsLoop rest { args with positional := args.positional ++ [a] }

/-- Model of `parseArgs(argv)`. -/
def parseArgs (argv : List String) : Args := parseArgsLoop argv {}

/-! ## Listing flow and main dispatch -/

/-- JS `x || d` for an optional number (`undefined`, `NaN` and `0` all
fall back to the default). -/
def jsOrInt (v : Option Int) (d : Int) : Int :=
  match v with
  | some n => if n ≠ 0 then n else d
  | none => d

/-- JS `x || d` for an optional string (`undefined` and `""` fall back). -/
def jsOrStr (v : Option String) (d : String) : String :=
  match v with
  | some s => if s ≠ "" then s else d
  | none => d

/-- JS truthiness of `args.pr` (`if (args.pr)`). -/
def jsTruthyInt (v : Option Int) : Bool :=
  match v with
  | some n => n ≠ 0
  | none => false

/-- One pull-request summary as the platform API returns it
(`{number, title, user?.login}`). -/
structure PRSummary where
  number : Int
  title : String
  login : Option String
deriving DecidableEq, Repr

/-- The line `listPRs` prints per item:
`#${p.number} ${p.title} by @${p.user?.login}` (a missing author prints
as JS `undefined`). -/
def formatPRLine (p : PRSummary) : String :=
  "#" ++ toString p.number ++ " " ++ p.title ++ " by @" ++
    (match p.login with | some l => l | none => "undefined")

/-- JS `xs.slice(0, limit)` (a negative limit counts from the end). -/
def jsSliceTo {α : Type} (xs : List α) (limit : Int) : List α :=
  if 0 ≤ limit then xs.take limit.toNat else xs.take (xs.length - limit.natAbs)

/-- Model of `listPRs` (cli.ts lines 41–61): resolve the token (propagating a
failure), then print one line per fetched pull request, capped at
`limit`.  The paginated platform response is the `prs` parameter; the
returned list is the printed lines in order. -/
def listPRs (env : Env) (w : World) (prs : List PRSummary) (limit : Int) :
    Except String (List String) :=
  match (resolveGitHubToken env w).result with
  | .error e => .error e
  | .ok _ => .ok ((jsSliceTo prs limit).map formatPRLine)

/-- The action `main` routes to after parsing. -/
inductive MainAction where
  | list (owner repo state : String) (limit : Int)
  | review (pr : Int) (dryRun : Bool) (owner repo : String) (out : OutValue)
  | usage
deriving DecidableEq, Repr

/-- Model of `main`'s dispatch (cli.ts lines 169–203): derive default owner/repo
from `GITHUB_REPOSITORY` (falling back to `shawnd/pr-reviewer`), then
route to the listing flow, the review flow, or usage help. -/
def mainDispatch (argv : List String) (env : Env) : MainAction :=
  let args := parseArgs argv
  let defaultRepo := jsOrStr env.github_repository "shawnd/pr-reviewer"
  let parts := splitOnSlash defaultRepo
  let defaultOwner := parts.headD ""
  let defaultRepoName := match parts with | _ :: r :: _ => r | _ => "undefined"
  let owner := jsOrStr args.owner defaultOwner
  let repo := jsOrStr args.repo defaultRepoName
  if args.listPrs then
    .list owner repo (jsOrStr args.state "open") (jsOrInt args.limit 10)
  else if jsTruthyInt args.pr then
    .review (jsOrInt args.pr 0) args.dryRun owner repo args.out
  else
    .usage

/-! ## Helper lemmas -/

/-- Lemma: `captureRun` appends every written fragment to `chunks` and passes
every write through to the live streams, in order. -/
theorem captureRun_spec (ws : List (StdStream × String)) (st : CaptureState) :
    captureRun ws st = ⟨st.chunks ++ ws.map Prod.snd, st.live ++ ws⟩ := by
  induction ws generalizing st with
  | nil => simp [captureRun]
  | cons w ws ih => simp [captureRun, ih, List.append_assoc]

/-- The `GITHUB_ACTION` spoof does not touch the token. -/
theorem spoofGitHubAction_token (env : Env) :
    (spoofGitHubAction env).github_token = env.github_token := by
  unfold spoofGitHubAction
  split <;> rfl

/-- The `GITHUB_TOKEN` the `.env` file contributes, if any. -/
def dotenvToken (w : World) : Option String :=
  match w.dotenv with
  | .loaded tok => tok
  | _ => none

/-- Loading the `.env` file preserves a token that is already present
(dotenv never overrides an existing entry, even an empty one). -/
theorem loadDotEnvIfExists_keeps_token (env : Env) (w : World) (t : String)
    (h : env.github_token = some t) :
    (loadDotEnvIfExists env w).1.github_token = some t := by
  rcases w with ⟨de, gh⟩
  rcases de with _ | _ | ftok
  · exact h
  · exact h
  · rcases ftok with _ | ft <;> simp [loadDotEnvIfExists, h]

/-- Loading the `.env` file never touches `GITHUB_ACTION`. -/
theorem loadDotEnvIfExists_action (env : Env) (w : World) :
    (loadDotEnvIfExists env w).1.github_action = env.github_action := by
  rcases w with ⟨de, gh⟩
  rcases de with _ | _ | ftok
  · rfl
  · rfl
  · rcases ftok with _ | ft
    · cases henv : env.github_token <;> simp [loadDotEnvIfExists, henv]
    · cases henv : env.github_token <;> simp [loadDotEnvIfExists, henv]

/-- The spoof changes nothing the `.env` load looks at, so the loaded
token is the same with or without it. -/
theorem loadDotEnvIfExists_token_spoof (env : Env) (w : World) :
    (loadDotEnvIfExists (spoofGitHubAction env) w).1.github_token =
      (loadDotEnvIfExists env w).1.github_token := by
  have hs := spoofGitHubAction_token env
  rcases w with ⟨de, gh⟩
  rcases de with _ | _ | ftok
  · exact hs
  · exact hs
  · rcases ftok with _ | ft <;> cases henv : env.github_token <;>
      simp [loadDotEnvIfExists, hs, henv]

/-- A successful `gh` fallback returns the trimmed nonempty stdout and
caches it. -/
theorem ghFallback_ok (env : Env) (ws : List String) (w : World) (t : String)
    (h : (ghFallback env ws w).result = .ok t) :
    t ≠ "" ∧ (ghFallback env ws w).env.github_token = some t := by
  rcases w with ⟨de, gh⟩
  rcases gh with _ | s
  · simp [ghFallback] at h
  · by_cases hs : trimJS s = "" <;> simp [ghFallback, hs] at h ⊢ <;> simp_all

/-- The `gh` fallback keeps the warnings it is handed. -/
theorem ghFallback_warnings (env : Env) (ws : List String) (w : World) :
    (ghFallback env ws w).warnings = ws := by
  rcases w with ⟨de, gh⟩
  rcases gh with _ | s
  · rfl
  · by_cases hs : trimJS s = "" <;> simp [ghFallback, hs]

/-- The `gh` fallback never touches `GITHUB_ACTION`. -/
theorem ghFallback_action (env : Env) (ws : List String) (w : World) :
    (ghFallback env ws w).env.github_action = env.github_action := by
  rcases w with ⟨de, gh⟩
  rcases gh with _ | s
  · rfl
  · by_cases hs : trimJS s = "" <;> simp [ghFallback, hs]

/-- A truthy optional string is a present, nonempty string. -/
theorem envTruthy_true_iff (v : Option String) :
    envTruthy v = true ↔ ∃ t, v = some t ∧ t ≠ "" := by
  cases v <;> simp [envTruthy]

/-- A success out of the `.env`-then-`gh` tail is a nonempty token that
ends up cached in the environment. -/
theorem resolveFromDotEnv_ok (env : Env) (w : World) (t : String)
    (h : (resolveFromDotEnv env w).result = .ok t) :
    t ≠ "" ∧ (resolveFromDotEnv env w).env.github_token = some t := by
  simp only [resolveFromDotEnv] at h ⊢
  by_cases htr : envTruthy (loadDotEnvIfExists env w).1.github_token = true
  · rw [if_pos htr] at h ⊢
    obtain ⟨t0, hload, h0⟩ := (envTruthy_true_iff _).mp htr
    rw [hload] at h ⊢
    simp at h
    subst h
    exact ⟨h0, rfl⟩
  · rw [if_neg htr] at h ⊢
    exact ghFallback_ok _ _ w t h

/-- The `.env`-then-`gh` tail never touches `GITHUB_ACTION`. -/
theorem resolveFromDotEnv_action (env : Env) (w : World) :
    (resolveFromDotEnv env w).env.github_action = env.github_action := by
  have hact := loadDotEnvIfExists_action env w
  simp only [resolveFromDotEnv]
  by_cases htr : envTruthy (loadDotEnvIfExists env w).1.github_token = true
  · rw [if_pos htr]
    exact hact
  · rw [if_neg htr]
    rw [ghFallback_action]
    exact hact

/-- A success out of the full source chain is a nonempty token that ends
up cached in the environment. -/
theorem resolveSources_ok (env : Env) (w : World) (t : String)
    (h : (resolveSources env w).result = .ok t) :
    t ≠ "" ∧ (resolveSources env w).env.github_token = some t := by
  simp only [resolveSources] at h ⊢
  by_cases htr : envTruthy env.github_token = true
  · rw [if_pos htr] at h ⊢
    obtain ⟨t0, henv, h0⟩ := (envTruthy_true_iff _).mp htr
    rw [henv] at h ⊢
    simp at h
    subst h
    exact ⟨h0, rfl⟩
  · rw [if_neg htr] at h ⊢
    exact resolveFromDotEnv_ok env w t h

/-- The source chain never touches `GITHUB_ACTION`. -/
theorem resolveSources_action (env : Env) (w : World) :
    (resolveSources env w).env.github_action = env.github_action := by
  simp only [resolveSources]
  by_cases htr : envTruthy env.github_token = true
  · rw [if_pos htr]
  · rw [if_neg htr]
    exact resolveFromDotEnv_action env w

/-- Resolution with a truthy explicit environment token short-circuits:
the token is returned unchanged and the external command is not
invoked. -/
theorem resolveGitHubToken_env_token (env : Env) (w : World) (t : String)
    (h : env.github_token = some t) (hne : t ≠ "") :
    (resolveGitHubToken env w).result = .ok t ∧
      (resolveGitHubToken env w).ghInvoked = false ∧
      (resolveGitHubToken env w).env.github_token = some t := by
  have hspoof : (spoofGitHubAction env).github_token = some t := by
    rw [spoofGitHubAction_token]; exact h
  unfold resolveGitHubToken
  simp only [resolveSources, hspoof]
  rw [if_pos (by simp [envTruthy, hne])]
  simp [hspoof]

/-- A successful resolution returns a nonempty token and leaves it cached
in the environment. -/
theorem resolveGitHubToken_ok (env : Env) (w : World) (t : String)
    (h : (resolveGitHubToken env w).result = .ok t) :
    t ≠ "" ∧ (resolveGitHubToken env w).env.github_token = some t :=
  resolveSources_ok (spoofGitHubAction env) w t h

/-- When the token is still falsy after the `.env` load, the chain
reaches the `gh` fallback with the loaded environment and warnings. -/
theorem resolveSources_falls_to_gh (env : Env) (w : World)
    (htr : envTruthy (loadDotEnvIfExists env w).1.github_token = false) :
    resolveSources env w =
      ghFallback (loadDotEnvIfExists env w).1 (loadDotEnvIfExists env w).2 w := by
  have henvf : envTruthy env.github_token = false := by
    cases henv : env.github_token with
    | none => rfl
    | some t0 =>
      have hk := loadDotEnvIfExists_keeps_token env w t0 henv
      rw [hk] at htr
      exact htr
  simp only [resolveSources]
  rw [if_neg (by simp [henvf])]
  simp only [resolveFromDotEnv]
  rw [if_neg (by simp [htr])]

/-! ## Claim theorems -/

/-- Claim C1 (counterexample): a backend response that lacks the sentinel
key and is not a valid instance of the schema is returned directly by
`runInference` instead of failing with a schema validation error, so the
claim's failure guarantee does not hold as stated. -/
theorem runInference_returns_unvalidated_raw :
    hasSentinelKey (JValue.str "not a number") = false ∧
      numSchema.valid (JValue.str "not a number") = false ∧
      runInference numSchema (JValue.str "not a number") = .ok (JValue.str "not a number") :=
  ⟨rfl, rfl, rfl⟩

/-- Claim C1 (amended): if the backend response lacks the sentinel key it
is returned directly, without re-validation against the request's schema;
if it is sentinel-wrapped and the payload fails validation, `runInference`
fails with a `SchemaValidationError` carrying the offending payload and
the violation detail, and returns no value. -/
theorem runInference_amended_validation (s : Schema) (v : JValue) :
    (hasSentinelKey v = false → runInference s v = .ok v) ∧
      (∀ x, sentinelPayload v = some x → s.valid x = false →
        runInference s v = .error ⟨x, "value does not conform to schema"⟩) := by
  constructor
  · intro h
    unfold runInference
    unfold hasSentinelKey at h
    cases hp : sentinelPayload v with
    | some x => rw [hp] at h; simp at h
    | none => rfl
  · intro x hx hvalid
    unfold runInference
    rw [hx]
    simp [Schema.parse, hvalid]

/-- Witness for the amended C1 at concrete inputs: a wrapped invalid
payload fails with the validation error, and a sentinel-free response is
passed through. -/
theorem runInference_amended_validation_witness :
    runInference numSchema (JValue.obj [(parameterNameKey, JValue.str "bad")]) =
        .error ⟨JValue.str "bad", "value does not conform to schema"⟩ ∧
      runInference numSchema (JValue.bool true) = .ok (JValue.bool true) :=
  ⟨(runInference_amended_validation numSchema
      (JValue.obj [(parameterNameKey, JValue.str "bad")])).2 (JValue.str "bad") rfl rfl,
    (runInference_amended_validation numSchema (JValue.bool true)).1 rfl⟩

/-- Claim C2: for every schema and every backend response that is an
object containing the sentinel key with a payload validating against the
schema, `runInference` unwraps the key, re-validates the payload, and
returns exactly the payload. -/
theorem runInference_unwraps_valid_sentinel (s : Schema)
    (fields : List (String × JValue)) (x : JValue)
    (hx : lookupField fields parameterNameKey = some x) (hv : s.valid x = true) :
    runInference s (JValue.obj fields) = .ok x := by
  simp [runInference, sentinelPayload, hx, Schema.parse, hv]

/-- Witness for C2: a concrete wrapped numeric payload is unwrapped and
returned exactly. -/
theorem runInference_unwraps_valid_sentinel_witness :
    runInference numSchema (JValue.obj [(parameterNameKey, JValue.num 7)]) =
      .ok (JValue.num 7) :=
  runInference_unwraps_valid_sentinel numSchema
    [(parameterNameKey, JValue.num 7)] (JValue.num 7) rfl rfl

/-- Claim C3: `resolveGitHubToken` consults the explicit environment
token, then the local `.env` file, then the external `gh auth token`
command, in that fixed order, returning the first (truthy) token found;
a `.env` load failure is logged as a warning and resolution proceeds to
the next source; if all three sources yield nothing the call fails with
the no-credential error; and on success the token is cached into the
process-wide environment. -/
theorem resolveGitHubToken_source_order (env : Env) (w : World) :
    (∀ t, env.github_token = some t → t ≠ "" →
      (resolveGitHubToken env w).result = .ok t ∧
        (resolveGitHubToken env w).ghInvoked = false) ∧
    (∀ t, env.github_token = none → w.dotenv = .loaded (some t) → t ≠ "" →
      (resolveGitHubToken env w).result = .ok t ∧
        (resolveGitHubToken env w).ghInvoked = false) ∧
    (∀ s, envTruthy (loadDotEnvIfExists env w).1.github_token = false →
      w.ghAuthToken = some s → trimJS s ≠ "" →
      (resolveGitHubToken env w).result = .ok (trimJS s) ∧
        (resolveGitHubToken env w).ghInvoked = true) ∧
    (envTruthy (loadDotEnvIfExists env w).1.github_token = false →
      (∀ s, w.ghAuthToken = some s → trimJS s = "") →
      (resolveGitHubToken env w).result = .error noCredentialMsg) ∧
    (envTruthy env.github_token = false → w.dotenv = .parseFailure →
      (resolveGitHubToken env w).warnings = [dotenvWarnMsg]) ∧
    (∀ t, (resolveGitHubToken env w).result = .ok t →
      (resolveGitHubToken env w).env.github_token = some t) := by
  have hspoofTok := spoofGitHubAction_token env
  refine ⟨?_, ?_, ?_, ?_, ?_, ?_⟩
  · intro t ht hne
    have h := resolveGitHubToken_env_token env w t ht hne
    exact ⟨h.1, h.2.1⟩
  · intro t ht hde hne
    have hstok : (spoofGitHubAction env).github_token = none := hspoofTok.trans ht
    have hload : (loadDotEnvIfExists (spoofGitHubAction env) w).1.github_token = some t := by
      rcases w with ⟨de, gh⟩
      cases hde
      simp [loadDotEnvIfExists, hstok]
    unfold resolveGitHubToken
    simp only [resolveSources]
    rw [if_neg (by simp [envTruthy, hstok])]
    simp only [resolveFromDotEnv]
    rw [if_pos (by simp [envTruthy, hload, hne])]
    simp [hload]
  · intro s htr hgh hs
    have htr2 : envTruthy
        (loadDotEnvIfExists (spoofGitHubAction env) w).1.github_token = false := by
      rw [loadDotEnvIfExists_token_spoof]
      exact htr
    unfold resolveGitHubToken
    rw [resolveSources_falls_to_gh (spoofGitHubAction env) w htr2]
    simp only [ghFallback, hgh]
    rw [if_pos (by simp [hs])]
    exact ⟨rfl, rfl⟩
  · intro htr hgh
    have htr2 : envTruthy
        (loadDotEnvIfExists (spoofGitHubAction env) w).1.github_token = false := by
      rw [loadDotEnvIfExists_token_spoof]
      exact htr
    unfold resolveGitHubToken
    rw [resolveSources_falls_to_gh (spoofGitHubAction env) w htr2]
    cases hg : w.ghAuthToken with
    | none => simp only [ghFallback, hg]
    | some s =>
      have hs := hgh s hg
      simp only [ghFallback, hg]
      rw [if_neg (by simp [hs])]
  · intro ht hde
    have hsf : envTruthy (spoofGitHubAction env).github_token = false := by
      rw [hspoofTok]; exact ht
    unfold resolveGitHubToken
    simp only [resolveSources]
    rw [if_neg (by simp [hsf])]
    simp only [resolveFromDotEnv]
    rcases w with ⟨de, gh⟩
    cases hde
    simp only [loadDotEnvIfExists]
    rw [if_neg (by simp [hsf])]
    exact ghFallback_warnings _ _ _
  · intro t ht
    exact (resolveGitHubToken_ok env w t ht).2

/-- Witness for C3: with no explicit token, a parse-failing `.env` and a
`gh auth token` stdout of `" ghtok \n"`, resolution warns, proceeds, and
returns the trimmed external token, caching it. -/
theorem resolveGitHubToken_source_order_witness :
    (resolveGitHubToken {} ⟨DotEnvResult.parseFailure, some " ghtok \n"⟩).result =
        Except.ok (trimJS " ghtok \n") ∧
      (resolveGitHubToken {} ⟨DotEnvResult.parseFailure, some " ghtok \n"⟩).warnings =
        [dotenvWarnMsg] ∧
      (resolveGitHubToken {} ⟨DotEnvResult.parseFailure, some " ghtok \n"⟩).env.github_token =
        some (trimJS " ghtok \n") := by
  have h := resolveGitHubToken_source_order {} ⟨DotEnvResult.parseFailure, some " ghtok \n"⟩
  have h1 := (h.2.2.1 " ghtok \n" rfl rfl (by decide)).1
  exact ⟨h1, h.2.2.2.2.1 rfl rfl, h.2.2.2.2.2 _ h1⟩

/-- Claim C4: credential resolution is idempotent within a process: after
one successful resolution (by any source), every later call returns the
same token and never re-invokes the external session command. -/
theorem resolveGitHubToken_idempotent (env : Env) (w : World) (t : String)
    (h : (resolveGitHubToken env w).result = .ok t) (w' : World) :
    (resolveGitHubToken (resolveGitHubToken env w).env w').result = .ok t ∧
      (resolveGitHubToken (resolveGitHubToken env w).env w').ghInvoked = false := by
  have hok := resolveGitHubToken_ok env w t h
  have h2 := resolveGitHubToken_env_token (resolveGitHubToken env w).env w' t hok.2 hok.1
  exact ⟨h2.1, h2.2.1⟩

/-- Witness for C4: a first resolution that had to fall back to the `gh`
command yields a cached token, and a second call in a world where `gh`
would now fail still returns it without invoking `gh`. -/
theorem resolveGitHubToken_idempotent_witness :
    (resolveGitHubToken
        (resolveGitHubToken {} ⟨DotEnvResult.absent, some "ghtok"⟩).env
        ⟨DotEnvResult.absent, none⟩).result = Except.ok "ghtok" ∧
      (resolveGitHubToken
        (resolveGitHubToken {} ⟨DotEnvResult.absent, some "ghtok"⟩).env
        ⟨DotEnvResult.absent, none⟩).ghInvoked = false :=
  resolveGitHubToken_idempotent {} ⟨DotEnvResult.absent, some "ghtok"⟩ "ghtok"
    rfl ⟨DotEnvResult.absent, none⟩

/-- Claim C10: every `resolveGitHubToken` call writes the
hosted-automation sentinel `GITHUB_ACTION := "local"` (when previously
unset) before consulting any credential source, so the environment is
mutated even on calls that fail: the error path is not state-preserving. -/
theorem resolveGitHubToken_spoofs_github_action (env : Env) (w : World)
    (h : env.github_action = none) :
    (resolveGitHubToken env w).env.github_action = some "local" ∧
      (resolveGitHubToken env w).env ≠ env := by
  have hact : (spoofGitHubAction env).github_action = some "local" := by
    simp [spoofGitHubAction, h, envTruthy]
  have hres : (resolveGitHubToken env w).env.github_action = some "local" := by
    unfold resolveGitHubToken
    rw [resolveSources_action, hact]
  refine ⟨hres, fun heq => ?_⟩
  rw [heq, h] at hres
  exact Option.noConfusion hres

/-- Witness for C10: a call with nothing set and every source empty fails
with the no-credential error, yet has still flipped `GITHUB_ACTION`. -/
theorem resolveGitHubToken_spoofs_github_action_witness :
    (resolveGitHubToken {} ⟨DotEnvResult.absent, none⟩).env.github_action = some "local" ∧
      (resolveGitHubToken {} ⟨DotEnvResult.absent, none⟩).env ≠ ({} : Env) ∧
      (resolveGitHubToken {} ⟨DotEnvResult.absent, none⟩).result =
        Except.error noCredentialMsg :=
  ⟨(resolveGitHubToken_spoofs_github_action {} ⟨DotEnvResult.absent, none⟩ rfl).1,
    (resolveGitHubToken_spoofs_github_action {} ⟨DotEnvResult.absent, none⟩ rfl).2,
    rfl⟩

/-- Claim C6 (counterexample): after `--out`, the next token `""` exists
and does not start with `-`, yet it is not consumed as the output path:
the empty token is falsy in JS, so the parser yields the boolean state
and leaves `""` to be collected as a positional token. -/
theorem parseArgs_out_empty_token :
    strStartsWith "" "-" = false ∧
      (parseArgs ["--out", ""]).out = OutValue.bool true ∧
      (parseArgs ["--out", ""]).positional = [""] ∧
      (parseArgs ["--out", ""]).out ≠ OutValue.str "" :=
  ⟨rfl, rfl, rfl, by decide⟩

/-- Claim C6 (amended): when the parser encounters `--out` (or `-out`),
a following token that is nonempty and does not start with `-` is
consumed as the output path; if `--out` is the last token, or the next
token is empty or starts with `-`, the result is the boolean
enabled-with-default-path state and the next token is not consumed. -/
theorem parseArgs_out_consumption (args : Args) (rest : List String) (a next : String)
    (ha : a = "--out" ∨ a = "-out") :
    (next ≠ "" → strStartsWith next "-" = false →
      parseArgsLoop (a :: next :: rest) args =
        parseArgsLoop rest { args with out := OutValue.str next }) ∧
      ((next = "" ∨ strStartsWith next "-" = true) →
        parseArgsLoop (a :: next :: rest) args =
          parseArgsLoop (next :: rest) { args with out := OutValue.bool true }) ∧
      parseArgsLoop [a] args = { args with out := OutValue.bool true } := by
  rcases ha with h | h <;> subst h <;>
    refine ⟨fun h1 h2 => ?_, fun h12 => ?_, ?_⟩ <;>
    · first
      | (simp only [parseArgsLoop]
         norm_num
         simp [h1, h2])
      | (simp only [parseArgsLoop]
         norm_num
         rcases h12 with h12 | h12 <;> simp [h12])
      | rfl

/-- Witness for the amended C6 at concrete inputs: a real path is
consumed, a flag-like token is not, and trailing `--out` yields the
boolean state. -/
theorem parseArgs_out_consumption_witness :
    (parseArgsLoop ["--out", "file.txt"] {} =
        parseArgsLoop [] { ({} : Args) with out := OutValue.str "file.txt" }) ∧
      (parseArgsLoop ["-out", "-x"] {} =
        parseArgsLoop ["-x"] { ({} : Args) with out := OutValue.bool true }) ∧
      parseArgsLoop ["--out"] {} = { ({} : Args) with out := OutValue.bool true } :=
  ⟨(parseArgs_out_consumption {} [] "--out" "file.txt" (Or.inl rfl)).1 (by decide) rfl,
    (parseArgs_out_consumption {} [] "-out" "-x" (Or.inr rfl)).2.1 (Or.inr rfl),
    (parseArgs_out_consumption {} [] "--out" "x" (Or.inl rfl)).2.2⟩

/-- Claim C7: the listing flow prints one line per pull request with its
number, title and author handle, in the platform's order, capped at the
configured limit; in particular `--list-prs --state open --limit 2`
against a backend returning 5 open pull requests prints exactly the first
2 lines in original order. -/
theorem listPRs_scenario (env : Env) (w : World) (t : String)
    (h : (resolveGitHubToken env w).result = .ok t)
    (p1 p2 p3 p4 p5 : PRSummary) :
    (∃ o r, mainDispatch ["--list-prs", "--state", "open", "--limit", "2"] env =
        .list o r "open" 2) ∧
      listPRs env w [p1, p2, p3, p4, p5] 2 =
        .ok [formatPRLine p1, formatPRLine p2] ∧
      ∀ (prs : List PRSummary) (n : Nat),
        listPRs env w prs (Int.ofNat n) = .ok ((prs.take n).map formatPRLine) := by
  refine ⟨⟨_, _, rfl⟩, ?_, ?_⟩
  · simp [listPRs, h, jsSliceTo]
  · intro prs n
    simp [listPRs, h, jsSliceTo]

/-- Witness for C7 at concrete inputs: five pull requests, limit 2,
exactly the first two formatted lines come back. -/
theorem listPRs_scenario_witness :
    listPRs { github_token := some "tok" } ⟨DotEnvResult.absent, none⟩
        [⟨1, "a", some "u1"⟩, ⟨2, "b", some "u2"⟩, ⟨3, "c", some "u3"⟩,
          ⟨4, "d", some "u4"⟩, ⟨5, "e", none⟩] 2 =
      .ok ["#1 a by @u1", "#2 b by @u2"] :=
  (listPRs_scenario { github_token := some "tok" } ⟨DotEnvResult.absent, none⟩ "tok" rfl
    ⟨1, "a", some "u1"⟩ ⟨2, "b", some "u2"⟩ ⟨3, "c", some "u3"⟩
    ⟨4, "d", some "u4"⟩ ⟨5, "e", none⟩).2.1

/-- Claim C5: with capture active, the flushed file is exactly the
written fragments concatenated in write order (each also passed through
to the live stream unchanged), and on every exit path of the review flow
— the delegate resolving or rejecting — the release function runs exactly
once, leaves the original writers restored, creates the destination
directory, writes the transcript as one file, and prints a confirmation
line with the path relative to the working directory. -/
theorem reviewPR_transcript_roundtrip (prNumber : Int) (dryRun : Bool)
    (owner repo : String) (out : OutValue) (cwd : String) (env : Env) (w : World)
    (delegate : DelegateRun) (t : String)
    (h : (resolveGitHubToken env w).result = .ok t) (hout : out.truthy = true) :
    (reviewPR prNumber dryRun owner repo out cwd env w delegate).restoreCount = 1 ∧
      (reviewPR prNumber dryRun owner repo out cwd env w delegate).writersPatchedAtEnd
        = false ∧
      (reviewPR prNumber dryRun owner repo out cwd env w delegate).effects =
        [Effect.mkdirRec (dirname (outPathFor prNumber out cwd)),
          Effect.writeFile (outPathFor prNumber out cwd)
            (String.join (delegate.writes.map Prod.snd)),
          Effect.consoleLine ("\n[dry-run] Saved output to " ++
            relativePath cwd (outPathFor prNumber out cwd))] ∧
      (reviewPR prNumber dryRun owner repo out cwd env w delegate).liveOutput =
        delegate.writes ∧
      (reviewPR prNumber dryRun owner repo out cwd env w delegate).result =
        delegate.outcome := by
  simp only [reviewPR, h, captureRun_spec]
  rcases delegate with ⟨ws, outcome⟩
  rcases outcome with e | u <;> simp [hout]

/-- Witness for C5 at concrete inputs, on the error path: the delegate
writes two fragments and then rejects; the release function still runs
once and the file content is the two fragments joined in order. -/
theorem reviewPR_transcript_roundtrip_witness :
    (reviewPR 42 true "o" "r" (OutValue.bool true) "/work"
        { github_token := some "tok" } ⟨DotEnvResult.absent, none⟩
        ⟨[(StdStream.stdout, "a"), (StdStream.stderr, "b")], .error "boom"⟩).restoreCount
      = 1 ∧
      (reviewPR 42 true "o" "r" (OutValue.bool true) "/work"
          { github_token := some "tok" } ⟨DotEnvResult.absent, none⟩
          ⟨[(StdStream.stdout, "a"), (StdStream.stderr, "b")], .error "boom"⟩).effects =
        [Effect.mkdirRec (dirname (outPathFor 42 (OutValue.bool true) "/work")),
          Effect.writeFile (outPathFor 42 (OutValue.bool true) "/work")
            (String.join ([(StdStream.stdout, "a"), (StdStream.stderr, "b")].map Prod.snd)),
          Effect.consoleLine ("\n[dry-run] Saved output to " ++
            relativePath "/work" (outPathFor 42 (OutValue.bool true) "/work"))] ∧
      (reviewPR 42 true "o" "r" (OutValue.bool true) "/work"
          { github_token := some "tok" } ⟨DotEnvResult.absent, none⟩
          ⟨[(StdStream.stdout, "a"), (StdStream.stderr, "b")], .error "boom"⟩).result =
        .error "boom" := by
  have hmain := reviewPR_transcript_roundtrip 42 true "o" "r" (OutValue.bool true) "/work"
    { github_token := some "tok" } ⟨DotEnvResult.absent, none⟩
    ⟨[(StdStream.stdout, "a"), (StdStream.stderr, "b")], .error "boom"⟩ "tok" rfl rfl
  exact ⟨hmain.1, hmain.2.2.1, hmain.2.2.2.2⟩

/-- Claim C8: `--pr 42 --dry-run --out` parses to the review flow with
capture enabled and no explicit path; the default path is derived from
the pull-request number sanitized to digits under the fixed `dry`
directory, so the captured output is written to `dry/pr-42.txt` under the
working directory. -/
theorem reviewPR_default_out_path (env : Env) (w : World) (delegate : DelegateRun)
    (t : String) (h : (resolveGitHubToken env w).result = .ok t) :
    (∃ o r, mainDispatch ["--pr", "42", "--dry-run", "--out"] env =
        .review 42 true o r (OutValue.bool true)) ∧
      sanitizeDigits (toString (42 : Int)) = "42" ∧
      outPathFor 42 (OutValue.bool true) "/work" = "/work/dry/pr-42.txt" ∧
      relativePath "/work" "/work/dry/pr-42.txt" = "dry/pr-42.txt" ∧
      ∀ o r, (reviewPR 42 true o r (OutValue.bool true) "/work" env w delegate).effects =
        [Effect.mkdirRec "/work/dry",
          Effect.writeFile "/work/dry/pr-42.txt"
            (String.join (delegate.writes.map Prod.snd)),
          Effect.consoleLine "\n[dry-run] Saved output to dry/pr-42.txt"] := by
  refine ⟨⟨_, _, rfl⟩, rfl, rfl, rfl, fun o r => ?_⟩
  simp only [reviewPR, h, captureRun_spec]
  rcases delegate with ⟨ws, outcome⟩
  rcases outcome with e | u <;> simp <;> rfl

/-- Witness for C8 at concrete inputs: with a resolvable token and a
delegate that writes two fragments, the file lands at
`/work/dry/pr-42.txt` with the concatenated content. -/
theorem reviewPR_default_out_path_witness :
    (reviewPR 42 true "o" "r" (OutValue.bool true) "/work"
        { github_token := some "tok" } ⟨DotEnvResult.absent, none⟩
        ⟨[(StdStream.stdout, "hello "), (StdStream.stdout, "world")], .ok ()⟩).effects =
      [Effect.mkdirRec "/work/dry",
        Effect.writeFile "/work/dry/pr-42.txt"
          (String.join ([(StdStream.stdout, "hello "), (StdStream.stdout, "world")].map
            Prod.snd)),
        Effect.consoleLine "\n[dry-run] Saved output to dry/pr-42.txt"] :=
  (reviewPR_default_out_path { github_token := some "tok" } ⟨DotEnvResult.absent, none⟩
    ⟨[(StdStream.stdout, "hello "), (StdStream.stdout, "world")], .ok ()⟩ "tok"
    rfl).2.2.2.2 "o" "r"

/-- Claim C9: whenever the review flow reaches the delegate, the
process-wide `DEBUG` flag has been set to `"1"` unconditionally,
whatever its prior value and whatever flags were passed. -/
theorem reviewPR_forces_debug (prNumber : Int) (dryRun : Bool) (owner repo : String)
    (out : OutValue) (cwd : String) (env : Env) (w : World) (delegate : DelegateRun)
    (t : String) (h : (resolveGitHubToken env w).result = .ok t) :
    (reviewPR prNumber dryRun owner repo out cwd env w delegate).env.debug = some "1" := by
  simp only [reviewPR, h]
  rcases delegate with ⟨ws, outcome⟩
  rcases outcome with e | u <;>
    cases hout : out.truthy <;>
    cases dryRun <;>
    simp [hout]

/-- Witness for C9: even with `DEBUG` previously set to `"0"` and no
debug-related flag passed, the delegate runs with `DEBUG = "1"`. -/
theorem reviewPR_forces_debug_witness :
    (reviewPR 7 false "o" "r" OutValue.undef "/work"
        { github_token := some "tok", debug := some "0" }
        ⟨DotEnvResult.absent, none⟩ ⟨[], .ok ()⟩).env.debug = some "1" :=
  reviewPR_forces_debug 7 false "o" "r" OutValue.undef "/work"
    { github_token := some "tok", debug := some "0" }
    ⟨DotEnvResult.absent, none⟩ ⟨[], .ok ()⟩ "tok" rfl

end PRReviewer
